import Mathlib

/-!
Shallow embedding of the video preprocessing module
(datasets/preprocessing_transforms.py) of the ViP repository.

Conventions used throughout:
- a PIL image is modelled by its extent only: a Frame with fields w and h,
  and frame.size is the pair (w, h) in that order, as in PIL;
- a bounding box is a 4-tuple of integers whose BoxSet slot order is
  (xmin, ymin, xmax, ymax);
- Python float division followed by int(...) is modelled by exact rational
  division followed by truncation toward zero (truncQ);
- numpy indexing errors, failed asserts, unbound local names and invalid
  numpy.random.randint ranges are modelled by the PyErr error channel;
- the randomness of numpy.random.randint(0, n) is modelled by a draw
  parameter r, realised as r % n, which ranges over exactly the interval
  [0, n) sampled by the source.
-/

namespace ViP

/-- Python exception channel: the exceptions the embedded code paths can raise. -/
inductive PyErr where
  | assertionError
  | typeError
  | nameError
  | valueError
  | indexError
  deriving DecidableEq, Repr

/-- Extent model of a PIL image: frame.size = (w, h) as in PIL. -/
structure Frame where
  w : ℕ
  h : ℕ
  deriving DecidableEq, Repr

/-- A bounding box as stored in a BoxSet row: slot order (xmin, ymin, xmax, ymax). -/
abbrev Box := ℤ × ℤ × ℤ × ℤ

/-- numpy.zeros row: the box value a not-yet-assigned slot keeps. -/
def zeroBox : Box := (0, 0, 0, 0)

/-- Python int(num / den) for an integer num and a positive integer den:
truncation toward zero of the exact rational num / den, like CPython int()
applied to the quotient. -/
def truncQ (num : ℤ) (den : ℕ) : ℤ :=
  if 0 ≤ num then ((num.toNat / den : ℕ) : ℤ)
  else -(((-num).toNat / den : ℕ) : ℤ)

/-- resize_bbox of preprocessing_transforms.py lines 421-439, verbatim:
parameters are declared in the order (xmin, xmax, ymin, ymax); img_shape[0]
is read as img_h and img_shape[1] as img_w; frac_h = res_h / img_h and
frac_w = res_w / img_w as exact rationals, so int(v * frac_w) is the
truncation of v * res_w / img_w; the result tuple is
(xmin_new, xmax_new, ymin_new, ymax_new). -/
def resize_bbox (xmin xmax ymin ymax : ℤ) (img_shape resize_shape : ℕ × ℕ) : Box :=
  let img_h := img_shape.1
  let img_w := img_shape.2
  let res_h := resize_shape.1
  let res_w := resize_shape.2
  (truncQ (xmin * (res_w : ℤ)) img_w, truncQ (xmax * (res_w : ℤ)) img_w,
   truncQ (ymin * (res_h : ℤ)) img_h, truncQ (ymax * (res_h : ℤ)) img_h)

/-- crop_bbox of preprocessing_transforms.py lines 442-466, verbatim:
parameters are declared in the order (xmin, xmax, ymin, ymax, crop_xmin,
crop_xmax, crop_ymin, crop_ymax); the no-intersection test returns the
sentinel (-1, -1, -1, -1); otherwise each edge is clipped to the crop
rectangle and the result tuple is (xmin_new, xmax_new, ymin_new, ymax_new). -/
def crop_bbox (xmin xmax ymin ymax crop_xmin crop_xmax crop_ymin crop_ymax : ℤ) : Box :=
  if xmin ≥ crop_xmax ∨ xmax ≤ crop_xmin ∨ ymin ≥ crop_ymax ∨ ymax ≤ crop_ymin then
    (-1, -1, -1, -1)
  else
    ((if xmin < crop_xmin then crop_xmin else xmin),
     (if xmax > crop_xmax then crop_xmax else xmax),
     (if ymin < crop_ymin then crop_ymin else ymin),
     (if ymax > crop_ymax then crop_ymax else ymax))

/-- Call site of resize_bbox in ResizeClip (line 82): the box slots
(xmin, ymin, xmax, ymax) are passed positionally into the parameters
(xmin, xmax, ymin, ymax), frame.size = (w, h) is passed as img_shape and
(size_w, size_h) as resize_shape; the returned tuple is stored into the
output slots unchanged. -/
def resizeBoxCall (f : Frame) (size_w size_h : ℕ) (b : Box) : Box :=
  resize_bbox b.1 b.2.1 b.2.2.1 b.2.2.2 (f.w, f.h) (size_w, size_h)

/-- Call site of crop_bbox in CropClip (line 122): the box slots
(xmin, ymin, xmax, ymax) are passed positionally into the parameters
(xmin, xmax, ymin, ymax); the returned tuple is stored into the output
slots unchanged. -/
def cropBoxCall (b : Box) (cxmin cxmax cymin cymax : ℤ) : Box :=
  crop_bbox b.1 b.2.1 b.2.2.1 b.2.2.2 cxmin cxmax cymin cymax

/-- PreprocTransform._format_clip (lines 27-43) on a clip of PIL images takes
the branch output_clip = clip and returns the clip unchanged. -/
def formatClipPIL (clip : List Frame) : List Frame := clip

/-- frame.resize((size_w, size_h)) in ResizeClip (line 76): the new PIL size
is (size_w, size_h). -/
def resizeFrame (size_h size_w : ℕ) (_ : Frame) : Frame := ⟨size_w, size_h⟩

/-- frame.crop((xmin, ymin, xmax, ymax)) in CropClip (line 115): the new PIL
size is (xmax - xmin, ymax - ymin). -/
def cropFrame (cxmin cxmax cymin cymax : ℤ) (_ : Frame) : Frame :=
  ⟨(cxmax - cxmin).toNat, (cymax - cymin).toNat⟩

/-- frame.transpose(FLIP_LEFT_RIGHT / FLIP_TOP_BOTTOM): the PIL size is
unchanged by a flip. -/
def flipFrame (f : Frame) : Frame := ⟨f.w, f.h⟩

/-- frame.rotate(angle) with the default expand=False: the PIL size is
unchanged by a rotation. -/
def rotateFrame (f : Frame) : Frame := ⟨f.w, f.h⟩

/-- Inner object-slot loop of ResizeClip (lines 79-83) and CropClip
(lines 119-123): starting from numpy.zeros of the row shape, iterate
class_ind upward for the given iteration count, read bbox[frame_ind,
class_ind] (IndexError when class_ind is outside the row) and overwrite row
class_ind of the accumulator with the transformed box. -/
def frameBoxesGo (pb : Box → Box) (row : List Box) : ℕ → ℕ → List Box → Except PyErr (List Box)
  | 0, _, acc => .ok acc
  | k + 1, i, acc =>
    match row.get? i with
    | none => .error .indexError
    | some b => frameBoxesGo pb row k (i + 1) (acc.set i (pb b))

/-- Full inner loop: count iterations starting at class_ind = 0, accumulator
numpy.zeros(bbox[frame_ind].shape). In the source, count = len(bbox), the
number of frames of the BoxSet, not the row length. -/
def frameBoxesLoop (pb : Box → Box) (count : ℕ) (row : List Box) : Except PyErr (List Box) :=
  frameBoxesGo pb row count 0 (List.replicate row.length zeroBox)

/-- Outer frame loop of ResizeClip.__call__ (lines 73-84) and
CropClip.__call__ (lines 113-124), with boxes present: for each frame_ind,
process the frame, then run the object-slot loop over range(len(bbox))
against bbox[frame_ind]. -/
def clipBoxesGo (pf : Frame → Frame) (pb : Frame → Box → Box)
    (clip : List Frame) (bbox : List (List Box)) :
    ℕ → ℕ → List Frame × List (List Box) → Except PyErr (List Frame × List (List Box))
  | 0, _, st => .ok st
  | k + 1, i, st =>
    match clip.get? i, bbox.get? i with
    | some fr, some row =>
      match frameBoxesLoop (pb fr) bbox.length row with
      | .error e => .error e
      | .ok temp => clipBoxesGo pf pb clip bbox k (i + 1) (st.1 ++ [pf fr], st.2 ++ [temp])
    | _, _ => .error .indexError

/-- Outer loop entry: frame_ind ranges over range(len(clip)). -/
def clipBoxesLoop (pf : Frame → Frame) (pb : Frame → Box → Box)
    (clip : List Frame) (bbox : List (List Box)) :
    Except PyErr (List Frame × List (List Box)) :=
  clipBoxesGo pf pb clip bbox clip.length 0 ([], [])

/-- ResizeClip.__call__ (lines 68-89): format the clip, then per frame resize
the pixels and, when boxes are supplied, run the box loop; the constructor
order is ResizeClip(size_h, size_w). -/
def resizeClipCall (size_h size_w : ℕ) (clip : List Frame) (bbox : List (List Box)) :
    Except PyErr (List Frame × List (List Box)) :=
  let c := formatClipPIL clip
  if bbox = [] then .ok (c.map (resizeFrame size_h size_w), [])
  else clipBoxesLoop (resizeFrame size_h size_w) (fun fr => resizeBoxCall fr size_w size_h) c bbox

/-- CropClip.__call__ (lines 108-129) with crop window fields
(bbox_xmin, bbox_xmax, bbox_ymin, bbox_ymax). -/
def cropClipCall (cxmin cxmax cymin cymax : ℤ) (clip : List Frame) (bbox : List (List Box)) :
    Except PyErr (List Frame × List (List Box)) :=
  let c := formatClipPIL clip
  if bbox = [] then .ok (c.map (cropFrame cxmin cxmax cymin cymax), [])
  else clipBoxesLoop (cropFrame cxmin cxmax cymin cymax)
    (fun _ b => cropBoxCall b cxmin cxmax cymin cymax) c bbox

/-- CenterCropClip._calculate_center (lines 171-176): int() of float halves,
computed from (frame_w, frame_h) = clip[0].size; in exact arithmetic
frame_w / 2 - crop_w / 2 = (frame_w - crop_w) / 2 and likewise for the sum;
result order (xmin, xmax, ymin, ymax). -/
def calculateCenter (crop_w crop_h frame_w frame_h : ℕ) : ℤ × ℤ × ℤ × ℤ :=
  (truncQ ((frame_w : ℤ) - (crop_w : ℤ)) 2,
   truncQ ((frame_w : ℤ) + (crop_w : ℤ)) 2,
   truncQ ((frame_h : ℤ) - (crop_h : ℤ)) 2,
   truncQ ((frame_h : ℤ) + (crop_h : ℤ)) 2)

/-- CenterCropClip.__call__ (lines 178-183): reads clip[0].size (IndexError on
an empty clip), computes the centered window and delegates to CropClip. -/
def centerCropCall (crop_w crop_h : ℕ) (clip : List Frame) (bbox : List (List Box)) :
    Except PyErr (List Frame × List (List Box)) :=
  match formatClipPIL clip with
  | [] => .error .indexError
  | f :: _ =>
    let c := calculateCenter crop_w crop_h f.w f.h
    cropClipCall c.1 c.2.1 c.2.2.1 c.2.2.2 clip bbox

/-- RandomCropClip._update_random_sample (lines 146-150):
numpy.random.randint(0, frame_w - crop_w) raises ValueError when the range is
empty (frame_w <= crop_w), and otherwise yields xmin in [0, frame_w - crop_w)
here realised as the draw rx modulo the range; same for y. Result order is
(xmin, xmax, ymin, ymax) with xmax = xmin + crop_w and ymax = ymin + crop_h. -/
def updateRandomSample (crop_w crop_h frame_w frame_h rx ry : ℕ) :
    Except PyErr (ℕ × ℕ × ℕ × ℕ) :=
  if frame_w ≤ crop_w then .error .valueError
  else
    let xmin := rx % (frame_w - crop_w)
    if frame_h ≤ crop_h then .error .valueError
    else
      let ymin := ry % (frame_h - crop_h)
      .ok (xmin, xmin + crop_w, ymin, ymin + crop_h)

/-- RandomCropClip.__call__ (lines 155-160): reads clip[0].size = (w, h),
samples one window with _update_random_sample(w, h), installs it in the inner
CropClip and delegates the whole clip with its boxes to it. -/
def randomCropCall (crop_w crop_h rx ry : ℕ) (clip : List Frame) (bbox : List (List Box)) :
    Except PyErr (List Frame × List (List Box)) :=
  match formatClipPIL clip with
  | [] => .error .indexError
  | f :: _ =>
    match updateRandomSample crop_w crop_h f.w f.h rx ry with
    | .error e => .error e
    | .ok (x1, x2, y1, y2) => cropClipCall (x1 : ℤ) (x2 : ℤ) (y1 : ℤ) (y2 : ℤ) clip bbox

/-- Flip direction of RandomFlipClip: the constructor argument direction,
either h or v. -/
inductive FlipDir where
  | h
  | v
  deriving DecidableEq, Repr

/-- RandomFlipClip._h_flip body for one box (lines 208-212): width is read
from frame_size[1] (the PIL height slot); output slots
(xmin_new, ymin, xmax_new, ymax) with xmax_new = width - xmin and
xmin_new = width - xmax. -/
def hFlipBox (width : ℤ) (b : Box) : Box :=
  (width - b.2.2.1, b.2.1, width - b.1, b.2.2.2)

/-- RandomFlipClip._h_flip (lines 204-213) over one BoxSet row. -/
def hFlipBoxes (bbox : List Box) (frame_size : ℕ × ℕ) : List Box :=
  bbox.map (hFlipBox (frame_size.2 : ℤ))

/-- RandomFlipClip._v_flip (lines 215-224): the assignment on line 223 uses
the names xmin_new and xmax_new, which are never bound in _v_flip, so the
first loop iteration raises NameError; with an empty row the loop body never
runs and the empty zeros array is returned. -/
def vFlipBoxes (bbox : List Box) (_ : ℕ × ℕ) : Except PyErr (List Box) :=
  match bbox with
  | [] => .ok []
  | _ => .error .nameError

/-- RandomFlipClip._flip_data (lines 227-242): flip every frame, and when
boxes are present map the per-row flip over them using output_clip[0].size
(IndexError on an empty clip). -/
def flipData (dir : FlipDir) (clip : List Frame) (bbox : List (List Box)) :
    Except PyErr (List Frame × List (List Box)) :=
  match dir with
  | .h =>
    let oc := clip.map flipFrame
    if bbox = [] then .ok (oc, [])
    else
      match oc.head? with
      | none => .error .indexError
      | some f0 => .ok (oc, bbox.map (fun row => hFlipBoxes row (f0.w, f0.h)))
  | .v =>
    let oc := clip.map flipFrame
    if bbox = [] then .ok (oc, [])
    else
      match oc.head? with
      | none => .error .indexError
      | some f0 =>
        match bbox.mapM (fun row => vFlipBoxes row (f0.w, f0.h)) with
        | .error e => .error e
        | .ok obs => .ok (oc, obs)

/-- Canonical frame content classes for the stacking step: a grayscale frame
converts by numpy.array to shape (h, w), a color frame to (h, w, c). -/
inductive CFrame where
  | gray (h w : ℕ)
  | color (h w c : ℕ)
  deriving DecidableEq, Repr

/-- Shape of numpy.array(frame) for one canonical frame. -/
def npFrameShape : CFrame → List ℕ
  | .gray h w => [h, w]
  | .color h w c => [h, w, c]

/-- Shape of PreprocTransform._format_clip_numpy (lines 45-55) on a canonical
clip of uniformly shaped frames: numpy.array of the per-frame arrays stacks a
leading frame axis in front of the per-frame shape. -/
def formatClipNumpyShape (clip : List CFrame) : List ℕ :=
  clip.length :: (match clip.head? with
    | none => []
    | some f => npFrameShape f)

/-- ToTensorClip.__call__ (lines 265-272): torch.from_numpy(...).float()
keeps the stacked shape of _format_clip_numpy and only promotes the dtype. -/
def toTensorShape (clip : List CFrame) : List ℕ := formatClipNumpyShape clip

/-- Runtime classes a clip element can have in _format_clip: a decoded PIL
image, a numpy array of a given shape, or anything else. -/
inductive PyFrameV where
  | pil (w h : ℕ)
  | nparr (shape : List ℕ)
  | other
  deriving DecidableEq, Repr

/-- Runtime class of the clip container itself. -/
inductive ClipContainer where
  | pylist
  | ndarray
  | otherc
  deriving DecidableEq, Repr

/-- PreprocTransform._format_clip (lines 27-43): the assert checks only that
the clip container is a list or a numpy array (AssertionError otherwise);
clip[0] on an empty clip raises IndexError; when the first element is a numpy
array the loop immediately evaluates len(frame.size), and .size of a numpy
array is its integer element count, so len raises TypeError; any other first
element takes the branch that returns the clip unchanged. -/
def formatClip (container : ClipContainer) (frames : List PyFrameV) :
    Except PyErr (List PyFrameV) :=
  match container with
  | .otherc => .error .assertionError
  | _ =>
    match frames.head? with
    | none => .error .indexError
    | some (.nparr _) => .error .typeError
    | some _ => .ok frames

/-- One configured transform unit together with the transient random draws of
its call (the sampled crop origin draws, the flip decision, the sampled
angle), as used for the clip-only call contract apply(clip). -/
inductive TUnit where
  | resize (size_h size_w : ℕ)
  | crop (cxmin cxmax cymin cymax : ℤ)
  | randomCrop (crop_w crop_h rx ry : ℕ)
  | centerCrop (crop_w crop_h : ℕ)
  | randomFlip (dir : FlipDir) (doFlip : Bool)
  | randomRotate (angle : ℤ)
  deriving DecidableEq, Repr

/-- Clip path of each unit when called without boxes (bbox = [] default):
the source returns only the processed clip in that case. -/
def applyUnit : TUnit → List Frame → Except PyErr (List Frame)
  | .resize size_h size_w, clip =>
    match resizeClipCall size_h size_w clip [] with
    | .error e => .error e
    | .ok p => .ok p.1
  | .crop a b c d, clip =>
    match cropClipCall a b c d clip [] with
    | .error e => .error e
    | .ok p => .ok p.1
  | .randomCrop cw ch rx ry, clip =>
    match randomCropCall cw ch rx ry clip [] with
    | .error e => .error e
    | .ok p => .ok p.1
  | .centerCrop cw ch, clip =>
    match centerCropCall cw ch clip [] with
    | .error e => .error e
    | .ok p => .ok p.1
  | .randomFlip dir doFlip, clip =>
    if doFlip then
      match flipData dir clip [] with
      | .error e => .error e
      | .ok p => .ok p.1
    else .ok clip
  | .randomRotate _, clip => .ok (clip.map rotateFrame)

/-- Pipeline composition: fold the ordered unit list left to right, feeding
the output of each unit into the next, failing fast on the first error. -/
def applySeq : List TUnit → List Frame → Except PyErr (List Frame)
  | [], clip => .ok clip
  | u :: us, clip =>
    match applyUnit u clip with
    | .error e => .error e
    | .ok c => applySeq us c

/-- numpy.arctan2(y, x): the argument angle of the complex number x + i y,
valued in the interval from negative pi exclusive to pi inclusive, with
arctan2 0 0 = 0, exactly as Complex.arg. -/
noncomputable def arctan2 (y x : ℝ) : ℝ := Complex.arg ⟨x, y⟩

/-- RandomRotateClip._cart2pol (lines 285-289): rho = sqrt(x**2 + y**2),
phi = arctan2(y, x). -/
noncomputable def cart2pol (p : ℝ × ℝ) : ℝ × ℝ :=
  (Real.sqrt (p.1 ^ 2 + p.2 ^ 2), arctan2 p.2 p.1)

/-- RandomRotateClip._pol2cart (lines 291-295). -/
noncomputable def pol2cart (p : ℝ × ℝ) : ℝ × ℝ :=
  (p.1 * Real.cos p.2, p.1 * Real.sin p.2)

/-- One corner in RandomRotateClip._rotate_bbox (lines 314-327): convert to
polar form, add the angle in radians to the polar angle, convert back to
Cartesian form. -/
noncomputable def rotCorner (angle : ℝ) (p : ℝ × ℝ) : ℝ × ℝ :=
  pol2cart ((cart2pol p).1, (cart2pol p).2 + angle)

/-- Python int(x) for a real x: truncation toward zero. -/
noncomputable def pyTruncR (x : ℝ) : ℤ := if 0 ≤ x then ⌊x⌋ else ⌈x⌉

/-- numpy.deg2rad: multiply by pi / 180. -/
noncomputable def deg2rad (a : ℝ) : ℝ := a * (Real.pi / 180)

/-- Body of the per-box loop of RandomRotateClip._rotate_bbox (lines
307-339) for one box with slots (xmin, ymin, xmax, ymax): the four corners
are taken relative to (half_w, half_h), rotated by the angle in radians,
re-centered by adding (half_w, half_h) back, and the output row is
[xmin_new, ymin_new, xmax_new, ymax_new] built from the truncated min and
max of the rotated corner coordinates. -/
noncomputable def rotateSingleBBox (half_w half_h angle : ℝ) (b : ℝ × ℝ × ℝ × ℝ) : Box :=
  let tl := rotCorner angle (b.1 - half_w, b.2.2.2 - half_h)
  let tr := rotCorner angle (b.2.2.1 - half_w, b.2.2.2 - half_h)
  let bl := rotCorner angle (b.1 - half_w, b.2.1 - half_h)
  let br := rotCorner angle (b.2.2.1 - half_w, b.2.1 - half_h)
  let tl2 := (tl.1 + half_w, tl.2 + half_h)
  let tr2 := (tr.1 + half_w, tr.2 + half_h)
  let bl2 := (bl.1 + half_w, bl.2 + half_h)
  let br2 := (br.1 + half_w, br.2 + half_h)
  (pyTruncR (min (min (min tl2.1 tr2.1) bl2.1) br2.1),
   pyTruncR (min (min (min tl2.2 tr2.2) bl2.2) br2.2),
   pyTruncR (max (max (max tl2.1 tr2.1) bl2.1) br2.1),
   pyTruncR (max (max (max tl2.2 tr2.2) bl2.2) br2.2))

/-- RandomRotateClip._rotate_bbox (lines 299-341): the angle is converted to
radians once per call; frame_shape is unpacked as (frame_h, frame_w), so
half_h = frame_shape.1 / 2 and half_w = frame_shape.2 / 2. -/
noncomputable def rotate_bbox (bboxes : List (ℝ × ℝ × ℝ × ℝ)) (frame_shape : ℝ × ℝ)
    (angle : ℝ) : List Box :=
  bboxes.map (rotateSingleBBox (frame_shape.2 / 2) (frame_shape.1 / 2) (deg2rad angle))

/-- Box path of RandomRotateClip.__call__ (lines 351-357): every frame row of
the BoxSet is rotated with frame_shape = clip[0].size = (w, h), the PIL size
of the first original frame, and the one sampled angle. -/
noncomputable def randomRotateBoxesCall (w h angle : ℝ)
    (bbox : List (List (ℝ × ℝ × ℝ × ℝ))) : List (List Box) :=
  bbox.map (fun row => rotate_bbox row (w, h) angle)

/-! Helper lemmas about the box loops. -/

theorem frameBoxesGo_err (pb : Box → Box) (row : List Box) :
    ∀ (k i : ℕ) (acc : List Box), i ≤ row.length → row.length < i + k →
      frameBoxesGo pb row k i acc = .error .indexError := by
  intro k
  induction k with
  | zero => intro i acc hle hlt; omega
  | succ k ih =>
    intro i acc hle hlt
    rcases Nat.lt_or_ge i row.length with hi | hi
    · obtain ⟨b, hb⟩ : ∃ b, row.get? i = some b := ⟨_, List.get?_eq_get hi⟩
      simp only [frameBoxesGo, hb]
      exact ih (i + 1) _ (by omega) (by omega)
    · have hb : row.get? i = none := List.get?_eq_none.mpr hi
      simp only [frameBoxesGo, hb]

theorem frameBoxesGo_ok (pb : Box → Box) (row : List Box) :
    ∀ (k i : ℕ) (acc : List Box), i + k ≤ row.length →
      ∃ out, frameBoxesGo pb row k i acc = .ok out := by
  intro k
  induction k with
  | zero => intro i acc _; exact ⟨acc, rfl⟩
  | succ k ih =>
    intro i acc h
    have hi : i < row.length := by omega
    obtain ⟨b, hb⟩ : ∃ b, row.get? i = some b := ⟨_, List.get?_eq_get hi⟩
    simp only [frameBoxesGo, hb]
    exact ih (i + 1) _ (by omega)

theorem clipBoxesGo_ok (pf : Frame → Frame) (pb : Frame → Box → Box)
    (clip : List Frame) (bbox : List (List Box)) :
    ∀ (k i : ℕ) (st : List Frame × List (List Box)),
      (∀ j, j < k → ∃ fr row, clip.get? (i + j) = some fr ∧ bbox.get? (i + j) = some row ∧
        bbox.length ≤ row.length) →
      ∃ out, clipBoxesGo pf pb clip bbox k i st = .ok out := by
  intro k
  induction k with
  | zero => intro i st _; exact ⟨st, rfl⟩
  | succ k ih =>
    intro i st hall
    obtain ⟨fr, row, hfr, hrow, hlen⟩ := hall 0 (by omega)
    rw [Nat.add_zero] at hfr hrow
    obtain ⟨temp, htemp⟩ := frameBoxesGo_ok (pb fr) row bbox.length 0 _ (by omega)
    have htemp2 : frameBoxesLoop (pb fr) bbox.length row = .ok temp := htemp
    simp only [clipBoxesGo, hfr, hrow, htemp2]
    refine ih (i + 1) _ (fun j hj => ?_)
    obtain ⟨a, r2, h1, h2, h3⟩ := hall (j + 1) (by omega)
    have harith : i + (j + 1) = i + 1 + j := by omega
    rw [harith] at h1 h2
    exact ⟨a, r2, h1, h2, h3⟩

theorem clipBoxesLoop_ok (pf : Frame → Frame) (pb : Frame → Box → Box)
    (clip : List Frame) (bbox : List (List Box))
    (hlen : bbox.length = clip.length)
    (hrows : ∀ row ∈ bbox, clip.length ≤ row.length) :
    ∃ out, clipBoxesLoop pf pb clip bbox = .ok out := by
  apply clipBoxesGo_ok
  intro j hj
  have hj1 : 0 + j < clip.length := by omega
  have hj2 : 0 + j < bbox.length := by omega
  refine ⟨clip.get ⟨0 + j, hj1⟩, bbox.get ⟨0 + j, hj2⟩,
    List.get?_eq_get hj1, List.get?_eq_get hj2, ?_⟩
  have hmem : bbox.get ⟨0 + j, hj2⟩ ∈ bbox := List.get_mem _ _ _
  exact le_trans (le_of_eq hlen) (hrows _ hmem)

theorem clipBoxesLoop_err (pf : Frame → Frame) (pb : Frame → Box → Box)
    (f : Frame) (cl : List Frame) (row : List Box) (bb : List (List Box))
    (hshort : row.length < bb.length + 1) :
    clipBoxesLoop pf pb (f :: cl) (row :: bb) = .error .indexError := by
  have herr : frameBoxesLoop (pb f) (bb.length + 1) row = .error .indexError := by
    unfold frameBoxesLoop
    exact frameBoxesGo_err (pb f) row _ 0 _ (by omega) (by omega)
  show clipBoxesGo pf pb (f :: cl) (row :: bb) (f :: cl).length 0 ([], []) = _
  have hg1 : (f :: cl).get? 0 = some f := rfl
  have hg2 : (row :: bb).get? 0 = some row := rfl
  simp only [List.length_cons, clipBoxesGo, hg1, hg2, herr]

/-! Helper lemmas about unit application. -/

theorem applyUnit_length (u : TUnit) (clip out : List Frame)
    (h : applyUnit u clip = .ok out) : out.length = clip.length := by
  cases u with
  | resize sh sw =>
    have e : applyUnit (.resize sh sw) clip = .ok (clip.map (resizeFrame sh sw)) := rfl
    rw [e] at h
    injection h with h2
    rw [← h2, List.length_map]
  | crop a b c d =>
    have e : applyUnit (.crop a b c d) clip = .ok (clip.map (cropFrame a b c d)) := rfl
    rw [e] at h
    injection h with h2
    rw [← h2, List.length_map]
  | randomCrop cw ch rx ry =>
    cases clip with
    | nil =>
      have e : applyUnit (.randomCrop cw ch rx ry) [] = .error .indexError := rfl
      rw [e] at h
      exact Except.noConfusion h
    | cons f rest =>
      rcases hu : updateRandomSample cw ch f.w f.h rx ry with e | ⟨x1, x2, y1, y2⟩
      · have e2 : applyUnit (.randomCrop cw ch rx ry) (f :: rest) = .error e := by
          simp only [applyUnit, randomCropCall, formatClipPIL, hu]
        rw [e2] at h
        exact Except.noConfusion h
      · have e2 : applyUnit (.randomCrop cw ch rx ry) (f :: rest) =
            .ok ((f :: rest).map (cropFrame (x1 : ℤ) (x2 : ℤ) (y1 : ℤ) (y2 : ℤ))) := by
          simp only [applyUnit, randomCropCall, formatClipPIL, hu]
          rfl
        rw [e2] at h
        injection h with h2
        rw [← h2, List.length_map]
  | centerCrop cw ch =>
    cases clip with
    | nil =>
      have e : applyUnit (.centerCrop cw ch) [] = .error .indexError := rfl
      rw [e] at h
      exact Except.noConfusion h
    | cons f rest =>
      have e : applyUnit (.centerCrop cw ch) (f :: rest) =
          .ok ((f :: rest).map (cropFrame (calculateCenter cw ch f.w f.h).1
            (calculateCenter cw ch f.w f.h).2.1 (calculateCenter cw ch f.w f.h).2.2.1
            (calculateCenter cw ch f.w f.h).2.2.2)) := rfl
      rw [e] at h
      injection h with h2
      rw [← h2, List.length_map]
  | randomFlip dir doFlip =>
    cases doFlip with
    | false =>
      have e : applyUnit (.randomFlip dir false) clip = .ok clip := by
        simp only [applyUnit, Bool.false_eq_true, if_false]
      rw [e] at h
      injection h with h2
      rw [← h2]
    | true =>
      cases dir with
      | h =>
        have e : applyUnit (.randomFlip .h true) clip = .ok (clip.map flipFrame) := rfl
        rw [e] at h
        injection h with h2
        rw [← h2, List.length_map]
      | v =>
        have e : applyUnit (.randomFlip .v true) clip = .ok (clip.map flipFrame) := rfl
        rw [e] at h
        injection h with h2
        rw [← h2, List.length_map]
  | randomRotate a =>
    have e : applyUnit (.randomRotate a) clip = .ok (clip.map rotateFrame) := rfl
    rw [e] at h
    injection h with h2
    rw [← h2, List.length_map]

/-! Helper lemmas about rotated corners. -/

theorem rotCorner_eq (a x y : ℝ) :
    rotCorner a (x, y) = (x * Real.cos a - y * Real.sin a, x * Real.sin a + y * Real.cos a) := by
  by_cases hz : x = 0 ∧ y = 0
  · obtain ⟨hx, hy⟩ := hz
    subst hx
    subst hy
    simp [rotCorner, cart2pol, pol2cart, arctan2]
  · have hz2 : (⟨x, y⟩ : ℂ) ≠ 0 := by
      intro hc
      rw [Complex.ext_iff] at hc
      simp only [Complex.zero_re, Complex.zero_im] at hc
      exact hz ⟨hc.1, hc.2⟩
    have habs : Real.sqrt (x ^ 2 + y ^ 2) = Complex.abs ⟨x, y⟩ := by
      rw [Complex.abs_apply, Complex.normSq_mk]
      ring_nf
    have hcos : Real.cos (Complex.arg ⟨x, y⟩) = x / Complex.abs ⟨x, y⟩ := Complex.cos_arg hz2
    have hsin : Real.sin (Complex.arg ⟨x, y⟩) = y / Complex.abs ⟨x, y⟩ := Complex.sin_arg ⟨x, y⟩
    have hane : Complex.abs ⟨x, y⟩ ≠ 0 := by
      simp only [ne_eq, map_eq_zero]
      exact hz2
    dsimp only [rotCorner, cart2pol, pol2cart, arctan2]
    rw [habs, Real.cos_add, Real.sin_add, hcos, hsin, Prod.mk.injEq]
    constructor
    · field_simp
    · field_simp
      ring

theorem rotCorner_pi (x y : ℝ) : rotCorner Real.pi (x, y) = (-x, -y) := by
  rw [rotCorner_eq]
  simp [Real.cos_pi, Real.sin_pi]

theorem deg2rad_180 : deg2rad 180 = Real.pi := by
  unfold deg2rad
  ring

/-! Claim theorems. -/

/-- C1: the spec end-to-end example fails on the code: on a 4-frame 100 by
100 clip with one box (10, 10, 50, 50) per frame, ResizeClip raises
IndexError, because the object-slot loop runs over range(len(bbox)) = 4
while each frame row has a single slot; moreover the CenterCrop window on the
50 by 50 frames is (15, 35, 15, 35) as claimed, but the CropClip call site
feeds the box slots (xmin, ymin, xmax, ymax) positionally into the crop_bbox
parameters (xmin, xmax, ymin, ymax), so the resized box (5, 5, 25, 25) would
come back as the sentinel, not as (15, 15, 25, 25). -/
theorem c1_pipeline_eval :
    resizeClipCall 50 50 (List.replicate 4 ⟨100, 100⟩)
      (List.replicate 4 [((10 : ℤ), 10, 50, 50)]) = .error .indexError ∧
    calculateCenter 20 20 50 50 = (15, 35, 15, 35) ∧
    cropBoxCall ((5 : ℤ), 5, 25, 25) 15 35 15 35 = (-1, -1, -1, -1) :=
  ⟨rfl, rfl, rfl⟩

/-- C2 counterexample: with integer coordinates allowed to be negative the
claimed equivalence fails: the box (-2, -2, 0, 0) and the degenerate crop
rectangle with all edges -1 overlap under the strict rule, all claimed
preconditions hold, and yet crop_bbox returns the sentinel value, because
the clipped output collides with (-1, -1, -1, -1). -/
theorem c2_counterexample :
    crop_bbox (-2) 0 (-2) 0 (-1) (-1) (-1) (-1) = (-1, -1, -1, -1) ∧
    ¬((-2 : ℤ) ≥ -1 ∨ (0 : ℤ) ≤ -1 ∨ (-2 : ℤ) ≥ -1 ∨ (0 : ℤ) ≤ -1) ∧
    ((-2 : ℤ) ≤ 0 ∧ (-2 : ℤ) ≤ 0 ∧ (-1 : ℤ) ≤ -1 ∧ (-1 : ℤ) ≤ -1) := by
  refine ⟨by decide, by decide, by decide⟩

/-- C2 amended: for boxes with nonnegative min coordinates (pixel
coordinates) and ordered boxes and crop rectangles, crop_bbox, called with
its parameters in their declared order, returns the sentinel exactly when
the box and the crop rectangle do not overlap under the strict rule, and
otherwise clips each edge to the rectangle boundary, returning a box fully
contained in the crop rectangle, in original-frame coordinates. -/
theorem c2_crop_bbox_spec (xmin xmax ymin ymax cxmin cxmax cymin cymax : ℤ)
    (hx0 : 0 ≤ xmin) (hy0 : 0 ≤ ymin) (hx : xmin ≤ xmax) (hy : ymin ≤ ymax)
    (hcx : cxmin ≤ cxmax) (hcy : cymin ≤ cymax) :
    (crop_bbox xmin xmax ymin ymax cxmin cxmax cymin cymax = (-1, -1, -1, -1) ↔
      (xmin ≥ cxmax ∨ xmax ≤ cxmin ∨ ymin ≥ cymax ∨ ymax ≤ cymin)) ∧
    ((xmin < cxmax ∧ cxmin < xmax ∧ ymin < cymax ∧ cymin < ymax) →
      crop_bbox xmin xmax ymin ymax cxmin cxmax cymin cymax =
        (max xmin cxmin, min xmax cxmax, max ymin cymin, min ymax cymax) ∧
      cxmin ≤ max xmin cxmin ∧ max xmin cxmin ≤ min xmax cxmax ∧ min xmax cxmax ≤ cxmax ∧
      cymin ≤ max ymin cymin ∧ max ymin cymin ≤ min ymax cymax ∧ min ymax cymax ≤ cymax) := by
  by_cases hov : xmin ≥ cxmax ∨ xmax ≤ cxmin ∨ ymin ≥ cymax ∨ ymax ≤ cymin
  · unfold crop_bbox
    rw [if_pos hov]
    exact ⟨⟨fun _ => hov, fun _ => rfl⟩, fun hpos => (by omega : False).elim⟩
  · unfold crop_bbox
    rw [if_neg hov]
    push_neg at hov
    have h1 : (if xmin < cxmin then cxmin else xmin) = max xmin cxmin := by
      rw [max_def]
      split_ifs <;> omega
    have h2 : (if xmax > cxmax then cxmax else xmax) = min xmax cxmax := by
      rw [min_def]
      split_ifs <;> omega
    have h3 : (if ymin < cymin then cymin else ymin) = max ymin cymin := by
      rw [max_def]
      split_ifs <;> omega
    have h4 : (if ymax > cymax then cymax else ymax) = min ymax cymax := by
      rw [min_def]
      split_ifs <;> omega
    rw [h1, h2, h3, h4]
    constructor
    · constructor
      · intro he
        simp only [Prod.mk.injEq] at he
        omega
      · intro hc
        exact (by omega : False).elim
    · intro _
      exact ⟨rfl, by omega⟩

/-- C2 witness: a concrete overlapping instance of the amended theorem. -/
theorem c2_crop_bbox_spec_witness :
    crop_bbox 2 10 3 11 4 8 5 9 = (max 2 4, min 10 8, max 3 5, min 11 9) :=
  ((c2_crop_bbox_spec 2 10 3 11 4 8 5 9 (by decide) (by decide) (by decide) (by decide)
    (by decide) (by decide)).2 (by decide)).1

/-- C3: resized boxes do not scale each coordinate by the ratio of its own
axis: for a single 100 wide, 50 high frame resized to 50 by 50 with box
(10, 10, 50, 40), the code produces (10, 10, 25, 20) — slots xmin and ymin
scaled by new_h over old_h and slots xmax and ymax scaled by new_w over
old_w, because the call site passes the slots (xmin, ymin, xmax, ymax) into
the parameters (xmin, xmax, ymin, ymax) and reads frame.size = (w, h) as
(img_h, img_w) — where the claim expects (5, 10, 25, 40). -/
theorem c3_resize_eval :
    resizeClipCall 50 50 [⟨100, 50⟩] [[((10 : ℤ), 10, 50, 40)]] =
      .ok ([⟨50, 50⟩], [[(10, 10, 25, 20)]]) ∧
    ((10, 10, 25, 20) : Box) ≠ ((5, 10, 25, 40) : Box) :=
  ⟨rfl, by decide⟩

/-- C4: on 4 wide, 2 high frames, the horizontal flip maps the box
(0, 0, 1, 1) to (1, 0, 2, 1), using frame_size[1] — the PIL height 2 — as
the width, where the claim expects (3, 0, 4, 1) with the true width 4; and
the vertical flip raises NameError on any nonempty box row because _v_flip
assigns from the never-bound names xmin_new and xmax_new. -/
theorem c4_flip_eval :
    flipData .h [⟨4, 2⟩] [[((0 : ℤ), 0, 1, 1)]] = .ok ([⟨4, 2⟩], [[(1, 0, 2, 1)]]) ∧
    ((1, 0, 2, 1) : Box) ≠ ((3, 0, 4, 1) : Box) ∧
    flipData .v [⟨4, 2⟩] [[((0 : ℤ), 0, 1, 1)]] = .error .nameError :=
  ⟨rfl, by decide, rfl⟩

/-- C5: the rotated box is not computed about the frame center claimed: for
a 4 wide, 2 high frame rotated by 180 degrees, the box (0, 0, 1, 1) maps to
(1, 3, 2, 4), because _rotate_bbox unpacks clip[0].size = (w, h) as
(frame_h, frame_w) and therefore centers the corners at (h / 2, w / 2); the
claim, centering at (w / 2, h / 2), expects (3, 1, 4, 2). -/
theorem c5_rotate_eval :
    randomRotateBoxesCall 4 2 180 [[(0, 0, 1, 1)]] = [[(1, 3, 2, 4)]] ∧
    ((1, 3, 2, 4) : Box) ≠ ((3, 1, 4, 2) : Box) := by
  constructor
  · simp only [randomRotateBoxesCall, rotate_bbox, List.map_cons, List.map_nil, deg2rad_180]
    norm_num [rotateSingleBBox, rotCorner_pi, pyTruncR, min_def, max_def]
  · decide

/-- C6: the stacking step does not produce the claimed color axis order: a
clip of 4 color frames of height 8, width 6 and 3 channels stacks to shape
[frame, height, width, channel] = [4, 8, 6, 3], not [4, 3, 8, 6]; the
grayscale shape [frame, height, width] does match the claim. -/
theorem c6_totensor_eval :
    toTensorShape (List.replicate 4 (.color 8 6 3)) = [4, 8, 6, 3] ∧
    ([4, 8, 6, 3] : List ℕ) ≠ [4, 3, 8, 6] ∧
    toTensorShape (List.replicate 4 (.gray 8 6)) = [4, 8, 6] :=
  ⟨rfl, by decide, rfl⟩

/-- C7: a clip whose first element is a numeric array raises TypeError
instead of being converted, because the loop evaluates len(frame.size) and
the numpy size attribute is an integer; and a clip whose first element is
unclassifiable is returned unchanged rather than rejected, because the
assert checks only the container type. -/
theorem c7_format_eval :
    formatClip .pylist [.nparr [5, 5]] = .error .typeError ∧
    formatClip .pylist [.other] = .ok [.other] :=
  ⟨rfl, rfl⟩

/-- C8: pipeline length invariance: any sequence of Resize, Crop, RandomCrop,
CenterCrop, RandomFlip and RandomRotate units that returns a clip returns one
with exactly as many frames as the input clip. -/
theorem c8_length (us : List TUnit) (clip out : List Frame)
    (h : applySeq us clip = .ok out) : out.length = clip.length := by
  induction us generalizing clip with
  | nil =>
    simp only [applySeq] at h
    injection h with h2
    rw [h2]
  | cons u us ih =>
    simp only [applySeq] at h
    rcases ha : applyUnit u clip with e | c
    · rw [ha] at h
      exact Except.noConfusion h
    · rw [ha] at h
      rw [ih c h, applyUnit_length u clip c ha]

/-- C8 witness: a five-unit pipeline on a concrete 3-frame clip. -/
theorem c8_length_witness :
    applySeq [TUnit.resize 50 50, .centerCrop 20 20, .randomFlip .h true, .randomRotate 90,
      .randomCrop 5 5 0 0] (List.replicate 3 ⟨100, 100⟩) = .ok (List.replicate 3 ⟨5, 5⟩) ∧
    (List.replicate 3 (⟨5, 5⟩ : Frame)).length = (List.replicate 3 (⟨100, 100⟩ : Frame)).length :=
  ⟨rfl, c8_length [TUnit.resize 50 50, .centerCrop 20 20, .randomFlip .h true,
    .randomRotate 90, .randomCrop 5 5 0 0] (List.replicate 3 ⟨100, 100⟩)
    (List.replicate 3 ⟨5, 5⟩) rfl⟩

/-- C9: when the crop is strictly smaller than the first frame in both
dimensions, the sampled window (xmin, xmin + crop_w, ymin, ymin + crop_h)
fits inside the frame extent and the very same window is applied to every
frame of the clip; when the requested crop width or height equals or exceeds
the frame extent, the call fails with the ValueError of
numpy.random.randint, with no InvalidCropSizeError guard. -/
theorem c9_randomcrop_spec (cw ch rx ry : ℕ) (f : Frame) (rest : List Frame) :
    (cw < f.w → ch < f.h →
      updateRandomSample cw ch f.w f.h rx ry =
        .ok (rx % (f.w - cw), rx % (f.w - cw) + cw, ry % (f.h - ch), ry % (f.h - ch) + ch) ∧
      rx % (f.w - cw) + cw ≤ f.w ∧ ry % (f.h - ch) + ch ≤ f.h ∧
      randomCropCall cw ch rx ry (f :: rest) [] =
        .ok ((f :: rest).map (cropFrame ((rx % (f.w - cw) : ℕ) : ℤ)
          ((rx % (f.w - cw) + cw : ℕ) : ℤ) ((ry % (f.h - ch) : ℕ) : ℤ)
          ((ry % (f.h - ch) + ch : ℕ) : ℤ)), [])) ∧
    (f.w ≤ cw ∨ f.h ≤ ch → randomCropCall cw ch rx ry (f :: rest) [] = .error .valueError) := by
  constructor
  · intro h1 h2
    have hu : updateRandomSample cw ch f.w f.h rx ry =
        .ok (rx % (f.w - cw), rx % (f.w - cw) + cw, ry % (f.h - ch), ry % (f.h - ch) + ch) := by
      simp only [updateRandomSample]
      rw [if_neg (by omega), if_neg (by omega)]
    refine ⟨hu, ?_, ?_, ?_⟩
    · have := Nat.mod_lt rx (show 0 < f.w - cw by omega)
      omega
    · have := Nat.mod_lt ry (show 0 < f.h - ch by omega)
      omega
    · simp only [randomCropCall, formatClipPIL, hu]
      rfl
  · intro hcase
    by_cases hw : f.w ≤ cw
    · have hu : updateRandomSample cw ch f.w f.h rx ry = .error .valueError := by
        simp only [updateRandomSample]
        rw [if_pos hw]
      simp only [randomCropCall, formatClipPIL, hu]
    · have hh : f.h ≤ ch := by
        rcases hcase with h | h
        · exact absurd h hw
        · exact h
      have hu : updateRandomSample cw ch f.w f.h rx ry = .error .valueError := by
        simp only [updateRandomSample]
        rw [if_neg hw, if_pos hh]
      simp only [randomCropCall, formatClipPIL, hu]

/-- C9 witness: crop 2 by 2 of a 10 wide, 8 high two-frame clip with draws
5 and 7. -/
theorem c9_randomcrop_witness :
    updateRandomSample 2 2 10 8 5 7 = .ok (5 % 8, 5 % 8 + 2, 7 % 6, 7 % 6 + 2) ∧
    5 % 8 + 2 ≤ 10 ∧ 7 % 6 + 2 ≤ 8 ∧
    randomCropCall 2 2 5 7 [⟨10, 8⟩, ⟨10, 8⟩] [] =
      .ok ([(⟨10, 8⟩ : Frame), ⟨10, 8⟩].map (cropFrame ((5 % 8 : ℕ) : ℤ)
        ((5 % 8 + 2 : ℕ) : ℤ) ((7 % 6 : ℕ) : ℤ) ((7 % 6 + 2 : ℕ) : ℤ)), []) :=
  (c9_randomcrop_spec 2 2 5 7 ⟨10, 8⟩ [⟨10, 8⟩]).1 (by decide) (by decide)

/-- C10 counterexample: box output is not defined only when the per-frame
slot count equals the frame count: a single-frame clip with two slots per
frame succeeds — the loop transforms slot 0 and leaves slot 1 as the zeros
row — although the slot count 2 differs from the frame count 1. -/
theorem c10_counterexample :
    resizeClipCall 50 50 [⟨100, 100⟩] [[((10 : ℤ), 10, 50, 50), (20, 20, 30, 30)]] =
      .ok ([⟨50, 50⟩], [[(5, 5, 25, 25), (0, 0, 0, 0)]]) ∧
    [((10 : ℤ), 10, 50, 50), ((20 : ℤ), 20, 30, 30)].length ≠
      [(⟨100, 100⟩ : Frame)].length :=
  ⟨rfl, by decide⟩

/-- C10 amended: neither Resize nor Crop validates BoxSet shape; both
iterate the object-slot index over range(len(bbox)), the number of frames,
so with uniform per-frame slot count s a BoxSet whose s is smaller than the
clip length makes both calls fail with an out-of-range IndexError rather
than a ShapeMismatchError, while s at least the clip length succeeds (slots
beyond the frame count are left as zero rows, so the output is the intended
per-slot transformation only when the counts are equal). -/
theorem c10_amended (size_h size_w : ℕ) (cx1 cx2 cy1 cy2 : ℤ)
    (clip : List Frame) (bbox : List (List Box)) (s : ℕ)
    (hlen : bbox.length = clip.length)
    (hrows : ∀ row ∈ bbox, row.length = s)
    (hne : clip ≠ []) :
    (s < clip.length →
      resizeClipCall size_h size_w clip bbox = .error .indexError ∧
      cropClipCall cx1 cx2 cy1 cy2 clip bbox = .error .indexError) ∧
    (clip.length ≤ s →
      (∃ out, resizeClipCall size_h size_w clip bbox = .ok out) ∧
      (∃ out, cropClipCall cx1 cx2 cy1 cy2 clip bbox = .ok out)) := by
  obtain ⟨f, cl, rfl⟩ : ∃ f cl, clip = f :: cl := by
    cases clip with
    | nil => exact absurd rfl hne
    | cons a l => exact ⟨a, l, rfl⟩
  obtain ⟨row, bb, rfl⟩ : ∃ r rb, bbox = r :: rb := by
    cases bbox with
    | nil => exact absurd hlen (by simp)
    | cons a l => exact ⟨a, l, rfl⟩
  have hbne : (row :: bb) ≠ ([] : List (List Box)) := by simp
  constructor
  · intro hs
    have hrow : row.length = s := hrows row (by simp)
    have hshort : row.length < bb.length + 1 := by
      simp only [List.length_cons] at hlen
      simp only [List.length_cons] at hs
      omega
    constructor
    · simp only [resizeClipCall, formatClipPIL]
      rw [if_neg hbne]
      exact clipBoxesLoop_err _ _ f cl row bb hshort
    · simp only [cropClipCall, formatClipPIL]
      rw [if_neg hbne]
      exact clipBoxesLoop_err _ _ f cl row bb hshort
  · intro hs
    have hr2 : ∀ r ∈ (row :: bb), (f :: cl).length ≤ r.length := by
      intro r hr
      rw [hrows r hr]
      exact hs
    constructor
    · simp only [resizeClipCall, formatClipPIL]
      rw [if_neg hbne]
      exact clipBoxesLoop_ok _ _ _ _ hlen hr2
    · simp only [cropClipCall, formatClipPIL]
      rw [if_neg hbne]
      exact clipBoxesLoop_ok _ _ _ _ hlen hr2

/-- C10 witness: a two-frame clip with one slot per frame makes both Resize
and Crop fail with IndexError. -/
theorem c10_amended_witness :
    resizeClipCall 50 50 [⟨100, 100⟩, ⟨100, 100⟩]
      [[((10 : ℤ), 10, 50, 50)], [((10 : ℤ), 10, 50, 50)]] = .error .indexError ∧
    cropClipCall 15 35 15 35 [⟨100, 100⟩, ⟨100, 100⟩]
      [[((10 : ℤ), 10, 50, 50)], [((10 : ℤ), 10, 50, 50)]] = .error .indexError :=
  (c10_amended 50 50 15 35 15 35 [⟨100, 100⟩, ⟨100, 100⟩]
    [[(10, 10, 50, 50)], [(10, 10, 50, 50)]] 1 rfl (by decide) (by decide)).1 (by decide)

end ViP
